import Mathlib

/-!
Shallow embedding of `src/aiosmtplib/connection.py` (class `SMTPConnection`).

The class is modelled as a pure state record `SMTPConnection`; each method
becomes a function from the state (plus the outcomes of external, asynchronous
collaborators: the transport-open attempt, the greeting read, the protocol's
command execution, and the `quit` of the SMTP-verb subclass) to a result
together with the successor state.

Conventions:
* `asyncio.Lock` is modelled by the boolean `connect_lock` (`true` = held).
  `connect` is modelled from the point where `await self._connect_lock.acquire()`
  has succeeded, so its first step sets `connect_lock := true`.
* Python `None` is `Option.none`; the `_default` sentinel of `default.py`
  (absent from `src/`) is the dedicated constructor `DefaultArg.sentinel`.
* Timeout values (`Union[float, int, None]`) are only stored and passed around
  by the code under `src/`, never computed with, so they are embedded as
  `Option Nat` (seconds; `none` = Python `None`).
* `transport.close()` acts on the external transport object only; the state
  effect of `SMTPConnection.close` is clearing the references and the lock.
* Errors raised become `Except.error` values of the inductive `SMTPErr`.
-/

/-- An `asyncio` transport, reduced to what `connection.py` observes of it:
whether `is_closing()` holds, plus an identity tag. -/
structure Transport where
  closing : Bool
  tid : Nat := 0
deriving DecidableEq, Repr

/-- `SMTPProtocol` instance (external collaborator; `protocol.py` is out of
scope, the manager only stores the reference). -/
structure SMTPProtocol where
deriving DecidableEq, Repr

/-- Modelled from the spec: `response.py` is not under `src/`; the spec says a
Response carries a three-digit status code and the full response text. -/
structure SMTPResponse where
  code : Nat
  message : String
deriving DecidableEq, Repr

/-- Modelled from the spec: `str(response)`, the "full response text" that
`SMTPConnectError` carries for a non-ready greeting. -/
def SMTPResponse.str (r : SMTPResponse) : String :=
  toString r.code ++ " " ++ r.message

/-- Modelled from the spec: `status.py` is not under `src/`; the spec names 220
as the protocol's "service ready" code. -/
def SMTPStatus.ready : Nat := 220

/-- Modelled from the spec: 421 is the "domain/service unavailable" code. -/
def SMTPStatus.domain_unavailable : Nat := 421

def SMTP_PORT : Nat := 25

def SMTP_TLS_PORT : Nat := 465

/-- `ssl.VerifyMode` values used by `_get_tls_context`. -/
inductive VerifyMode where
  | cert_none
  | cert_optional
  | cert_required
deriving DecidableEq, Repr

/-- An `ssl.SSLContext`, reduced to the fields `_get_tls_context` sets:
`check_hostname`, `verify_mode`, the CA bundle loaded by
`load_verify_locations`, and the chain loaded by `load_cert_chain`. -/
structure SSLContext where
  check_hostname : Bool
  verify_mode : VerifyMode
  ca_bundle : Option String
  cert_chain : Option (String × Option String)
deriving DecidableEq, Repr

/-- `ssl.create_default_context(ssl.Purpose.SERVER_AUTH)`: hostname checking on
and certificate verification required, nothing extra loaded yet. -/
def create_default_context : SSLContext :=
  { check_hostname := true
    verify_mode := .cert_required
    ca_bundle := none
    cert_chain := none }

/-- The errors `connection.py` raises (`errors.py` is not under `src/`; the
constructors mirror the names imported there, plus `ValueError`). -/
inductive SMTPErr where
  | valueError (msg : String)
  | connectError (msg : String)
  | connectTimeoutError (msg : String)
  | serverDisconnected (msg : String)
deriving DecidableEq, Repr

/-- Modelled from the spec: the three-state override sentinel of `default.py`
(absent from `src/`): `sentinel` is the module-level `_default` object, meaning
"argument not supplied"; `given v` is an explicitly supplied value `v`
(which may itself be Python `None`). -/
inductive DefaultArg (α : Type) where
  | sentinel
  | given (a : α)
deriving DecidableEq, Repr

/-- The mutable state of an `SMTPConnection` instance: the transport/protocol
pair, the stored Connection Configuration, and the single-flight connect
lock. -/
structure SMTPConnection where
  protocol : Option SMTPProtocol
  transport : Option Transport
  hostname : Option String
  port : Option Nat
  timeout : Option Nat
  use_tls : Bool
  source_address : Option String
  validate_certs : Bool
  client_cert : Option String
  client_key : Option String
  tls_context : Option SSLContext
  cert_bundle : Option String
  connect_lock : Bool
deriving DecidableEq, Repr

/-- `is_connected`: `bool(self.transport and not self.transport.is_closing())`. -/
def SMTPConnection.is_connected (s : SMTPConnection) : Bool :=
  match s.transport with
  | some t => !t.closing
  | none => false

/-- `close()`: asks the external transport to close when present and not
already closing, releases the lock when held, and clears both references.
Every statement in the body is guarded, so the method never raises; the
model is accordingly a total function. -/
def SMTPConnection.close (s : SMTPConnection) : SMTPConnection :=
  { s with protocol := none, transport := none, connect_lock := false }

/-- `__init__`: validates the TLS mutual-exclusion invariant, then stores the
configuration with no transport, no protocol and a free lock. -/
def SMTPConnection.init
    (hostname : Option String := some "localhost")
    (port : Option Nat := none)
    (source_address : Option String := none)
    (timeout : Option Nat := some 60)
    (use_tls : Bool := false)
    (validate_certs : Bool := true)
    (client_cert : Option String := none)
    (client_key : Option String := none)
    (tls_context : Option SSLContext := none)
    (cert_bundle : Option String := none) :
    Except SMTPErr SMTPConnection :=
  if tls_context.isSome && client_cert.isSome then
    .error (.valueError "Either a TLS context or a certificate/key must be provided")
  else
    .ok
      { protocol := none
        transport := none
        hostname := hostname
        port := port
        timeout := timeout
        use_tls := use_tls
        source_address := source_address
        validate_certs := validate_certs
        client_cert := client_cert
        client_key := client_key
        tls_context := tls_context
        cert_bundle := cert_bundle
        connect_lock := false }

/-- The keyword arguments of `connect`, with each parameter's actual Python
sentinel: `None` for `hostname`/`port`/`use_tls`/`validate_certs` (an explicit
`None` is therefore the same argument value as not passing the argument), and
the `_default` object for the remaining six options. -/
structure ConnectArgs where
  hostname : Option String := none
  port : Option Nat := none
  source_address : DefaultArg (Option String) := .sentinel
  timeout : DefaultArg (Option Nat) := .sentinel
  use_tls : Option Bool := none
  validate_certs : Option Bool := none
  client_cert : DefaultArg (Option String) := .sentinel
  client_key : DefaultArg (Option String) := .sentinel
  tls_context : DefaultArg (Option SSLContext) := .sentinel
  cert_bundle : DefaultArg (Option String) := .sentinel
deriving DecidableEq, Repr

/-- Lines 188-214 of `connect`: apply the supplied overrides to the stored
configuration (in source order), resolving an unset port to 465 (TLS) or 25. -/
def apply_connect_overrides (s : SMTPConnection) (a : ConnectArgs) : SMTPConnection :=
  let s := match a.hostname with
    | some h => { s with hostname := some h }
    | none => s
  let s := match a.use_tls with
    | some v => { s with use_tls := v }
    | none => s
  let s := match a.validate_certs with
    | some v => { s with validate_certs := v }
    | none => s
  let s := match a.port with
    | some p => { s with port := some p }
    | none => s
  let s := if s.port.isNone then
      { s with port := some (if s.use_tls then SMTP_TLS_PORT else SMTP_PORT) }
    else s
  let s := match a.timeout with
    | .given v => { s with timeout := v }
    | .sentinel => s
  let s := match a.source_address with
    | .given v => { s with source_address := v }
    | .sentinel => s
  let s := match a.client_cert with
    | .given v => { s with client_cert := v }
    | .sentinel => s
  let s := match a.client_key with
    | .given v => { s with client_key := v }
    | .sentinel => s
  let s := match a.tls_context with
    | .given v => { s with tls_context := v }
    | .sentinel => s
  let s := match a.cert_bundle with
    | .given v => { s with cert_bundle := v }
    | .sentinel => s
  s

/-- `_get_tls_context`: return a stored pre-built context unchanged, else build
a client-purpose default context and configure it from the stored options. -/
def SMTPConnection.get_tls_context (s : SMTPConnection) : SSLContext :=
  match s.tls_context with
  | some context => context
  | none =>
    let context := create_default_context
    let context := { context with check_hostname := s.validate_certs }
    let context :=
      if s.validate_certs then { context with verify_mode := .cert_required }
      else { context with verify_mode := .cert_none }
    let context := match s.cert_bundle with
      | some b => { context with ca_bundle := some b }
      | none => context
    let context := match s.client_cert with
      | some c => { context with cert_chain := some (c, s.client_key) }
      | none => context
    context

/-- Outcome of `loop.create_connection` under `asyncio.wait_for` (external
network behaviour): refused/OS error with its text, timeout, or an open
transport. -/
inductive ConnectOutcome where
  | refused (err : String)
  | timedOut
  | opened (t : Transport)
deriving DecidableEq, Repr

/-- Outcome of awaiting `protocol.read_response()` under `asyncio.wait_for`
(the greeting wait): timeout, or a complete server response. -/
inductive GreetingOutcome where
  | timedOut
  | response (r : SMTPResponse)
deriving DecidableEq, Repr

/-- `_create_connection`: require hostname and port, open the transport
(closing and failing on refusal or timeout), store the transport/protocol
pair, await the greeting (closing and failing on timeout), and reject a
greeting whose code is not `SMTPStatus.ready` (closing first). -/
def SMTPConnection.create_connection (s : SMTPConnection)
    (co : ConnectOutcome) (go : GreetingOutcome) :
    Except SMTPErr SMTPResponse × SMTPConnection :=
  match s.hostname with
  | none => (.error (.valueError "Hostname must be set."), s)
  | some host =>
    match s.port with
    | none => (.error (.valueError "Port must be set."), s)
    | some port =>
      match co with
      | .refused err =>
        (.error (.connectError
            ("Error connecting to " ++ host ++ " on port " ++ toString port
              ++ ": " ++ err)),
          s.close)
      | .timedOut =>
        (.error (.connectTimeoutError
            ("Timed out connecting to " ++ host ++ " on port " ++ toString port)),
          s.close)
      | .opened t =>
        let s := { s with protocol := some ⟨⟩, transport := some t }
        match go with
        | .timedOut =>
          (.error (.connectTimeoutError "Timed out waiting for server ready message"),
            s.close)
        | .response r =>
          if r.code ≠ SMTPStatus.ready then
            (.error (.connectError r.str), s.close)
          else
            (.ok r, s)

/-- `connect`: acquire the single-flight lock, apply the overrides, re-check
the TLS mutual-exclusion invariant, then run `_create_connection`. -/
def SMTPConnection.connect (s : SMTPConnection) (a : ConnectArgs)
    (co : ConnectOutcome) (go : GreetingOutcome) :
    Except SMTPErr SMTPResponse × SMTPConnection :=
  let s := { s with connect_lock := true }
  let s := apply_connect_overrides s a
  if s.tls_context.isSome && s.client_cert.isSome then
    (.error (.valueError "Either a TLS context or a certificate/key must be provided"), s)
  else
    s.create_connection co go

/-- The liveness test of `_raise_error_if_disconnected`:
`transport is None or protocol is None or transport.is_closing()`. -/
def SMTPConnection.disconnected_check (s : SMTPConnection) : Bool :=
  s.transport.isNone || s.protocol.isNone ||
    (match s.transport with
      | some t => t.closing
      | none => false)

/-- `_raise_error_if_disconnected`: when the liveness test fails, call
`close()` and raise `SMTPServerDisconnected`; otherwise do nothing. -/
def SMTPConnection.raise_error_if_disconnected (s : SMTPConnection) :
    Option SMTPErr × SMTPConnection :=
  if s.disconnected_check then
    (some (.serverDisconnected "Disconnected from SMTP server"), s.close)
  else
    (none, s)

/-- Outcome of `self.protocol.execute_command(*args, timeout=timeout)`
(external collaborator): a server-side disconnection, or a response. -/
inductive CmdOutcome where
  | disconnected
  | response (r : SMTPResponse)
deriving DecidableEq, Repr

/-- `execute_command`: resolve the timeout, run the liveness pre-check,
delegate to the protocol (closing and re-raising on `SMTPServerDisconnected`),
and proactively close — while still returning the response — when the code is
`SMTPStatus.domain_unavailable`. -/
def SMTPConnection.execute_command (s : SMTPConnection) (co : CmdOutcome)
    (timeout : DefaultArg (Option Nat) := .sentinel) :
    Except SMTPErr SMTPResponse × SMTPConnection :=
  let _resolved_timeout := match timeout with
    | .sentinel => s.timeout
    | .given v => v
  match s.raise_error_if_disconnected with
  | (some e, s) => (.error e, s)
  | (none, s) =>
    match co with
    | .disconnected => (.error (.serverDisconnected "Disconnected from SMTP server"), s.close)
    | .response r =>
      if r.code = SMTPStatus.domain_unavailable then (.ok r, s.close)
      else (.ok r, s)

/-- `get_transport_info`: liveness pre-check, then
`transport.get_extra_info(key)` — an external read modelled as opaque. -/
def SMTPConnection.get_transport_info (s : SMTPConnection) (_key : String) :
    Except SMTPErr Unit × SMTPConnection :=
  match s.raise_error_if_disconnected with
  | (some e, s) => (.error e, s)
  | (none, s) => (.ok (), s)

/-- Python exception types appearing in `__aexit__`, with the subclass facts
the guard logic can encounter: `ConnectionResetError` is a builtin subclass of
`ConnectionError`; `noneType` stands for "no exception". -/
inductive ExcT where
  | noneType
  | connectionError
  | connectionResetError
  | smtpTimeoutError
  | smtpResponseException
  | notImplementedError
  | other
deriving DecidableEq, Repr

/-- Python `issubclass` on the fragment of the hierarchy modelled here
(reflexive; `ConnectionResetError <: ConnectionError` is the builtin fact). -/
def ExcT.subclassOf : ExcT → ExcT → Bool
  | .connectionResetError, .connectionError => true
  | a, b => a == b

/-- Outcome of `await self.quit()` (implemented by the SMTP-verb subclass,
external to this core): normal return or an exception, each with the state the
quit attempt leaves behind. -/
inductive QuitOutcome where
  | ok (s : SMTPConnection)
  | raises (e : ExcT) (s : SMTPConnection)
deriving DecidableEq, Repr

/-- `__aexit__`: force-close when `exc_type in (ConnectionError,
SMTPTimeoutError)` (a tuple-membership test, i.e. type equality) or when not
connected; otherwise attempt `quit()`, catching `(ConnectionError,
SMTPResponseException, SMTPTimeoutError)` (subclasses included) by
force-closing. Returns the exception escaping from the cleanup itself (the
scope's own exception propagates regardless) and the final state. -/
def SMTPConnection.aexit (s : SMTPConnection) (exc_type : ExcT) (q : QuitOutcome) :
    Option ExcT × SMTPConnection :=
  let is_connection_error := exc_type == .connectionError || exc_type == .smtpTimeoutError
  if is_connection_error || !s.is_connected then
    (none, s.close)
  else
    match q with
    | .ok s => (none, s)
    | .raises e s =>
      if e.subclassOf .connectionError || e.subclassOf .smtpResponseException
          || e.subclassOf .smtpTimeoutError then
        (none, s.close)
      else
        (some e, s)

/-- `__aenter__`: connect when not already connected, else leave the state
alone (the connect outcome parameters are unused in that case). -/
def SMTPConnection.aenter (s : SMTPConnection) (a : ConnectArgs)
    (co : ConnectOutcome) (go : GreetingOutcome) :
    Except SMTPErr SMTPConnection :=
  if !s.is_connected then
    match s.connect a co go with
    | (.ok _, s) => .ok s
    | (.error e, s) =>
      let _ := s
      .error e
  else
    .ok s

/-- The ten stored Connection Configuration fields, as one tuple (used to
state frame conditions). -/
def SMTPConnection.config (s : SMTPConnection) :
    Option String × Option Nat × Option Nat × Bool × Option String × Bool
      × Option String × Option String × Option SSLContext × Option String :=
  (s.hostname, s.port, s.timeout, s.use_tls, s.source_address, s.validate_certs,
    s.client_cert, s.client_key, s.tls_context, s.cert_bundle)

/-- Resolve a three-state argument against the previously stored value
(`x if arg is _default else arg`). -/
def DefaultArg.resolve {α : Type} (d : DefaultArg α) (prev : α) : α :=
  match d with
  | .sentinel => prev
  | .given v => v

/-- A concrete baseline state (the constructor's stored defaults), used by
witnesses and counterexamples. -/
def sampleState : SMTPConnection :=
  { protocol := none, transport := none, hostname := some "localhost",
    port := none, timeout := some 60, use_tls := false, source_address := none,
    validate_certs := true, client_cert := none, client_key := none,
    tls_context := none, cert_bundle := none, connect_lock := false }

/-- A live concrete state: open (non-closing) transport, protocol bound,
lock held (the state a successful `connect` leaves behind). -/
def liveState : SMTPConnection :=
  { sampleState with
    transport := some ⟨false, 0⟩
    protocol := some ⟨⟩
    connect_lock := true }

/-- A stale concrete state: transport present but closing, protocol still
referenced, lock held. -/
def staleState : SMTPConnection :=
  { sampleState with
    transport := some ⟨true, 0⟩
    protocol := some ⟨⟩
    connect_lock := true }

/-- Connect arguments supplying a pre-built TLS context and a client
certificate path at once. -/
def bothTlsArgs : ConnectArgs :=
  { tls_context := .given (some create_default_context)
    client_cert := .given (some "cert.pem") }

/-! ### Helper lemmas -/

/-- `close` is idempotent on states. -/
theorem close_close (s : SMTPConnection) : s.close.close = s.close := rfl

/-- `close` never touches the stored configuration. -/
theorem config_close (s : SMTPConnection) : s.close.config = s.config := rfl

/-- `_create_connection` never touches the stored configuration. -/
theorem config_create_connection (s : SMTPConnection) (co : ConnectOutcome)
    (go : GreetingOutcome) : (s.create_connection co go).2.config = s.config := by
  obtain ⟨prot, tr, hn, po, tm, ut, sa, vc, cc, ck, tc, cb, lk⟩ := s
  cases hn <;> cases po <;> cases co <;> try rfl
  cases go with
  | timedOut => rfl
  | response r =>
    by_cases h : r.code = SMTPStatus.ready <;>
      simp [h, SMTPConnection.create_connection, SMTPConnection.config,
        SMTPConnection.close]

set_option maxHeartbeats 1000000 in
/-- After override application the port is always set: line 200 resolves an
unset port and no later override can unset it. -/
theorem apply_connect_overrides_port_isSome (s : SMTPConnection) (a : ConnectArgs) :
    (apply_connect_overrides s a).port.isSome = true := by
  obtain ⟨prot, tr, hn, po, tm, ut, sa, vc, cc, ck, tc, cb, lk⟩ := s
  obtain ⟨ah, ap, asa, atm, aut, avc, acc, ack, atc, acb⟩ := a
  cases ah <;> cases aut <;> cases avc <;> cases ap <;> cases po <;>
    cases atm <;> cases asa <;> cases acc <;> cases ack <;> cases atc <;>
    cases acb <;> rfl

set_option maxHeartbeats 1000000 in
/-- Field-by-field characterization of the override application: the
`None`-sentinel options take the argument when it is non-`None`, the
`_default`-sentinel options take any explicitly given value, and an unset
port resolves to 465 under TLS and 25 otherwise. -/
theorem apply_connect_overrides_eq (s : SMTPConnection) (a : ConnectArgs) :
    apply_connect_overrides s a =
      { s with
        hostname := a.hostname.or s.hostname
        use_tls := a.use_tls.getD s.use_tls
        validate_certs := a.validate_certs.getD s.validate_certs
        port := (a.port.or s.port).or
          (some (if a.use_tls.getD s.use_tls then SMTP_TLS_PORT else SMTP_PORT))
        timeout := a.timeout.resolve s.timeout
        source_address := a.source_address.resolve s.source_address
        client_cert := a.client_cert.resolve s.client_cert
        client_key := a.client_key.resolve s.client_key
        tls_context := a.tls_context.resolve s.tls_context
        cert_bundle := a.cert_bundle.resolve s.cert_bundle } := by
  obtain ⟨prot, tr, hn, po, tm, ut, sa, vc, cc, ck, tc, cb, lk⟩ := s
  obtain ⟨ah, ap, asa, atm, aut, avc, acc, ack, atc, acb⟩ := a
  cases ah <;> cases aut <;> cases avc <;> cases ap <;> cases po <;>
    cases atm <;> cases asa <;> cases acc <;> cases ack <;> cases atc <;>
    cases acb <;> rfl

/-- Override application never touches the lock. -/
theorem apply_connect_overrides_lock (s : SMTPConnection) (a : ConnectArgs) :
    (apply_connect_overrides s a).connect_lock = s.connect_lock := by
  rw [apply_connect_overrides_eq]

/-! ### Claim theorems -/

/-- C1 (amended): a `connect` that fails opening the transport (refusal or OS
error), times out connecting, times out waiting for the greeting, or rejects
a non-ready greeting ends in `close`, leaving the lock free, the references
cleared and the manager re-connectable; but the two configuration-error paths
(TLS mutual exclusion, unset hostname) raise without running the cleanup
path, so the single-flight lock stays held there. -/
theorem connect_failure_lock_spec (s s1 : SMTPConnection) (a : ConnectArgs)
    (hs1 : s1 = apply_connect_overrides { s with connect_lock := true } a) :
    ((s1.tls_context.isSome && s1.client_cert.isSome) = true →
      (∀ co go, s.connect a co go
        = (.error (.valueError "Either a TLS context or a certificate/key must be provided"),
            s1))
      ∧ s1.connect_lock = true)
    ∧ ((s1.tls_context.isSome && s1.client_cert.isSome) = false → s1.hostname = none →
      (∀ co go, s.connect a co go = (.error (.valueError "Hostname must be set."), s1))
      ∧ s1.connect_lock = true)
    ∧ ((s1.tls_context.isSome && s1.client_cert.isSome) = false →
      ∀ h : String, s1.hostname = some h →
      (∀ err go, (s.connect a (.refused err) go).2 = s1.close)
      ∧ (∀ go, (s.connect a .timedOut go).2 = s1.close)
      ∧ (∀ t, (s.connect a (.opened t) .timedOut).2
          = SMTPConnection.close { s1 with protocol := some ⟨⟩, transport := some t })
      ∧ (∀ t r, r.code ≠ SMTPStatus.ready →
          (s.connect a (.opened t) (.response r)).2
            = SMTPConnection.close { s1 with protocol := some ⟨⟩, transport := some t }))
    ∧ ∀ s₀ : SMTPConnection, s₀.close.connect_lock = false
        ∧ s₀.close.transport = none ∧ s₀.close.protocol = none
        ∧ s₀.close.is_connected = false := by
  have hlock : s1.connect_lock = true := by
    rw [hs1, apply_connect_overrides_lock]
  have hport : s1.port.isSome = true := by
    rw [hs1]; exact apply_connect_overrides_port_isSome _ _
  refine ⟨fun hc => ⟨fun co go => ?_, hlock⟩,
    fun hc hh => ⟨fun co go => ?_, hlock⟩,
    fun hc h hh => ?_,
    fun s₀ => ⟨rfl, rfl, rfl, rfl⟩⟩
  · simp [SMTPConnection.connect, ← hs1, hc]
  · simp [SMTPConnection.connect, ← hs1, hc, SMTPConnection.create_connection, hh]
  · obtain ⟨p, hp⟩ := Option.isSome_iff_exists.mp hport
    refine ⟨fun err go => ?_, fun go => ?_, fun t => ?_, fun t r hr => ?_⟩
    · simp [SMTPConnection.connect, ← hs1, hc, SMTPConnection.create_connection, hh, hp]
    · simp [SMTPConnection.connect, ← hs1, hc, SMTPConnection.create_connection, hh, hp]
    · simp [SMTPConnection.connect, ← hs1, hc, SMTPConnection.create_connection, hh, hp]
    · simp [SMTPConnection.connect, ← hs1, hc, SMTPConnection.create_connection, hh,
        hp, hr]

/-- Witness for C1: from the default state, a refused connect and a
greeting-timeout connect both end in the closed (lock-free) state. -/
theorem connect_failure_lock_spec_witness :
    (SMTPConnection.connect sampleState {} (.refused "ECONNREFUSED")
        (.response ⟨220, "ready"⟩)).2
      = (apply_connect_overrides { sampleState with connect_lock := true } {}).close
    ∧ (SMTPConnection.connect sampleState {} (.opened ⟨false, 0⟩) .timedOut).2
      = SMTPConnection.close
          { apply_connect_overrides { sampleState with connect_lock := true } {} with
            protocol := some ⟨⟩, transport := some ⟨false, 0⟩ } :=
  ⟨((connect_failure_lock_spec sampleState
        (apply_connect_overrides { sampleState with connect_lock := true } {}) {}
        rfl).2.2.1 (by decide) "localhost" (by decide)).1
      "ECONNREFUSED" (.response ⟨220, "ready"⟩),
    ((connect_failure_lock_spec sampleState
        (apply_connect_overrides { sampleState with connect_lock := true } {}) {}
        rfl).2.2.1 (by decide) "localhost" (by decide)).2.2.1 ⟨false, 0⟩⟩

/-- C1 counterexample: a `connect` supplying both a TLS context and a client
certificate fails with the configuration `ValueError` while the single-flight
lock is still held — refuting "the lock is free after every failed
connect". -/
theorem connect_failure_lock_counterexample :
    (SMTPConnection.connect sampleState bothTlsArgs (.opened ⟨false, 0⟩)
        (.response ⟨220, "ready"⟩)).1
      = .error (.valueError "Either a TLS context or a certificate/key must be provided")
    ∧ (SMTPConnection.connect sampleState bothTlsArgs (.opened ⟨false, 0⟩)
        (.response ⟨220, "ready"⟩)).2.connect_lock = true :=
  ⟨rfl, rfl⟩

/-- C2 (amended): with no live transport/protocol (transport absent, protocol
absent, or transport closing), `execute_command` and `get_transport_info`
fail with the not-connected error (`SMTPServerDisconnected`) for every
protocol outcome and key — so no I/O is attempted — but only after `close()`
has run, clearing any stale references and freeing the lock. -/
theorem execute_command_disconnected_spec (s : SMTPConnection)
    (co : CmdOutcome) (to_ : DefaultArg (Option Nat)) (key : String)
    (h : s.disconnected_check = true) :
    s.execute_command co to_
        = (.error (.serverDisconnected "Disconnected from SMTP server"), s.close)
    ∧ s.get_transport_info key
        = (.error (.serverDisconnected "Disconnected from SMTP server"), s.close)
    ∧ s.close.transport = none ∧ s.close.protocol = none
    ∧ s.close.connect_lock = false := by
  refine ⟨?_, ?_, rfl, rfl, rfl⟩ <;>
    simp [SMTPConnection.execute_command, SMTPConnection.get_transport_info,
      SMTPConnection.raise_error_if_disconnected, h]

/-- Witness for C2 at the stale concrete state. -/
theorem execute_command_disconnected_spec_witness :
    SMTPConnection.execute_command staleState (.response ⟨250, "OK"⟩) .sentinel
      = (.error (.serverDisconnected "Disconnected from SMTP server"),
          SMTPConnection.close staleState)
    ∧ SMTPConnection.get_transport_info staleState "peername"
      = (.error (.serverDisconnected "Disconnected from SMTP server"),
          SMTPConnection.close staleState)
    ∧ (SMTPConnection.close staleState).transport = none
    ∧ (SMTPConnection.close staleState).protocol = none
    ∧ (SMTPConnection.close staleState).connect_lock = false :=
  execute_command_disconnected_spec staleState (.response ⟨250, "OK"⟩) .sentinel
    "peername" (by decide)

/-- C2 counterexample: at the stale state (closing transport, held lock), the
failing `execute_command` does not leave the state untouched — `close()` runs
first, releasing the lock — so "no teardown performed" is false as stated. -/
theorem execute_command_disconnected_counterexample :
    (SMTPConnection.execute_command staleState (.response ⟨250, "OK"⟩) .sentinel).1
      = .error (.serverDisconnected "Disconnected from SMTP server")
    ∧ (SMTPConnection.execute_command staleState (.response ⟨250, "OK"⟩) .sentinel).2
      ≠ staleState :=
  ⟨rfl, by decide⟩

/-- C3 (amended): the six `_default`-sentinel options (`timeout`,
`source_address`, `client_cert`, `client_key`, `tls_context`, `cert_bundle`)
distinguish "not supplied" (keep stored) from any explicitly supplied value,
including a null/falsy one, which overrides. The `None`-sentinel options
(`hostname`, `port`, `use_tls`, `validate_certs`) are overridden by any
non-`None` value (falsy included) and kept by `None`, which is
indistinguishable from "not supplied"; additionally an unset port is resolved
during connect to 465 (TLS) or 25 rather than left unchanged. -/
theorem connect_overrides_sentinel_spec :
    (∀ (s : SMTPConnection) (v : Option Nat),
      (apply_connect_overrides s { timeout := .given v }).timeout = v)
    ∧ (∀ s : SMTPConnection, (apply_connect_overrides s {}).timeout = s.timeout)
    ∧ (∀ (s : SMTPConnection) (v : Option String),
      (apply_connect_overrides s { source_address := .given v }).source_address = v)
    ∧ (∀ s : SMTPConnection, (apply_connect_overrides s {}).source_address = s.source_address)
    ∧ (∀ (s : SMTPConnection) (v : Option String),
      (apply_connect_overrides s { client_cert := .given v }).client_cert = v)
    ∧ (∀ s : SMTPConnection, (apply_connect_overrides s {}).client_cert = s.client_cert)
    ∧ (∀ (s : SMTPConnection) (v : Option String),
      (apply_connect_overrides s { client_key := .given v }).client_key = v)
    ∧ (∀ s : SMTPConnection, (apply_connect_overrides s {}).client_key = s.client_key)
    ∧ (∀ (s : SMTPConnection) (v : Option SSLContext),
      (apply_connect_overrides s { tls_context := .given v }).tls_context = v)
    ∧ (∀ s : SMTPConnection, (apply_connect_overrides s {}).tls_context = s.tls_context)
    ∧ (∀ (s : SMTPConnection) (v : Option String),
      (apply_connect_overrides s { cert_bundle := .given v }).cert_bundle = v)
    ∧ (∀ s : SMTPConnection, (apply_connect_overrides s {}).cert_bundle = s.cert_bundle)
    ∧ (∀ (s : SMTPConnection) (h : String),
      (apply_connect_overrides s { hostname := some h }).hostname = some h)
    ∧ (∀ s : SMTPConnection,
      (apply_connect_overrides s { hostname := none }).hostname = s.hostname)
    ∧ (∀ (s : SMTPConnection) (b : Bool),
      (apply_connect_overrides s { use_tls := some b }).use_tls = b)
    ∧ (∀ s : SMTPConnection,
      (apply_connect_overrides s { use_tls := none }).use_tls = s.use_tls)
    ∧ (∀ (s : SMTPConnection) (b : Bool),
      (apply_connect_overrides s { validate_certs := some b }).validate_certs = b)
    ∧ (∀ s : SMTPConnection,
      (apply_connect_overrides s { validate_certs := none }).validate_certs = s.validate_certs)
    ∧ (∀ (s : SMTPConnection) (p : Nat),
      (apply_connect_overrides s { port := some p }).port = some p)
    ∧ (∀ (s : SMTPConnection) (p : Nat),
      (apply_connect_overrides { s with port := some p } {}).port = some p)
    ∧ (∀ s : SMTPConnection,
      (apply_connect_overrides { s with port := none, use_tls := false } {}).port
        = some SMTP_PORT)
    ∧ (∀ s : SMTPConnection,
      (apply_connect_overrides { s with port := none, use_tls := true } {}).port
        = some SMTP_TLS_PORT) := by
  refine ⟨fun s v => ?_, fun s => ?_, fun s v => ?_, fun s => ?_, fun s v => ?_,
    fun s => ?_, fun s v => ?_, fun s => ?_, fun s v => ?_, fun s => ?_, fun s v => ?_,
    fun s => ?_, fun s h => ?_, fun s => ?_, fun s b => ?_, fun s => ?_, fun s b => ?_,
    fun s => ?_, fun s p => ?_, fun s p => ?_, fun s => ?_, fun s => ?_⟩ <;>
    simp [apply_connect_overrides_eq, DefaultArg.resolve, Option.or]

/-- C3 counterexample: `hostname` has no third sentinel state — an explicit
`None` argument is the very same value as "not supplied", so it cannot
override a stored hostname; and an unset `port` is not left unchanged by a
no-override connect but resolved to 25. -/
theorem connect_overrides_sentinel_counterexample :
    (apply_connect_overrides { sampleState with hostname := some "smtp.example.com" }
        { hostname := none }).hostname = some "smtp.example.com"
    ∧ (some "smtp.example.com" : Option String) ≠ none
    ∧ (apply_connect_overrides sampleState {}).port = some 25
    ∧ sampleState.port = none :=
  ⟨rfl, by decide, rfl, rfl⟩

/-- C4: `close()` is idempotent and total: after any sequence of one or more
`close()` calls starting from any state, `is_connected` is false, the
single-flight lock is free, and the transport and protocol references are
cleared to absent; the model of `close` is a total function (every statement
in the source body is guarded), so no call in the sequence raises. -/
theorem close_sequence_clean (s : SMTPConnection) (n : Nat) :
    (SMTPConnection.close^[n] s.close).is_connected = false
    ∧ (SMTPConnection.close^[n] s.close).connect_lock = false
    ∧ (SMTPConnection.close^[n] s.close).transport = none
    ∧ (SMTPConnection.close^[n] s.close).protocol = none := by
  have hfix : SMTPConnection.close^[n] s.close = s.close :=
    Function.iterate_fixed (close_close s) n
  rw [hfix]
  exact ⟨rfl, rfl, rfl, rfl⟩

/-- C5: supplying both a pre-built TLS context and a client certificate always
fails with the configuration `ValueError` — together at construction, stored
context then connect-supplied certificate, stored certificate then
connect-supplied context, or both at the same connect; the check runs in the
constructor and again on every `connect` after override application. -/
theorem tls_mutual_exclusion :
    (∀ (hn : Option String) (po : Option Nat) (sa : Option String) (tm : Option Nat)
        (ut vc : Bool) (ck cb : Option String) (c : SSLContext) (cert : String),
      SMTPConnection.init hn po sa tm ut vc (some cert) ck (some c) cb
        = .error (.valueError "Either a TLS context or a certificate/key must be provided"))
    ∧ (∀ (s : SMTPConnection) (a : ConnectArgs) (co : ConnectOutcome)
        (go : GreetingOutcome) (c : SSLContext) (cert : String),
      (SMTPConnection.connect { s with tls_context := some c }
          { a with tls_context := .sentinel, client_cert := .given (some cert) } co go).1
        = .error (.valueError "Either a TLS context or a certificate/key must be provided"))
    ∧ (∀ (s : SMTPConnection) (a : ConnectArgs) (co : ConnectOutcome)
        (go : GreetingOutcome) (c : SSLContext) (cert : String),
      (SMTPConnection.connect { s with client_cert := some cert }
          { a with client_cert := .sentinel, tls_context := .given (some c) } co go).1
        = .error (.valueError "Either a TLS context or a certificate/key must be provided"))
    ∧ (∀ (s : SMTPConnection) (a : ConnectArgs) (co : ConnectOutcome)
        (go : GreetingOutcome) (c : SSLContext) (cert : String),
      (SMTPConnection.connect s
          { a with tls_context := .given (some c), client_cert := .given (some cert) }
          co go).1
        = .error (.valueError "Either a TLS context or a certificate/key must be provided")) := by
  refine ⟨fun hn po sa tm ut vc ck cb c cert => rfl,
    fun s a co go c cert => ?_, fun s a co go c cert => ?_, fun s a co go c cert => ?_⟩ <;>
    simp [SMTPConnection.connect, apply_connect_overrides_eq, DefaultArg.resolve]

/-- C6: once the transport is open, a greeting timeout closes the connection
(references cleared, lock released) before `SMTPConnectTimeoutError` is
raised; a greeting whose code is not 220 closes the connection before
`SMTPConnectError` carrying the full response text is raised; a ready
greeting is returned with transport and protocol stored. -/
theorem create_connection_greeting (s : SMTPConnection) (h : String) (p : Nat)
    (t : Transport) (r : SMTPResponse) :
    (SMTPConnection.create_connection { s with hostname := some h, port := some p }
        (.opened t) .timedOut
      = (.error (.connectTimeoutError "Timed out waiting for server ready message"),
          { s with
            hostname := some h, port := some p, protocol := none,
            transport := none, connect_lock := false }))
    ∧ (r.code ≠ SMTPStatus.ready →
      SMTPConnection.create_connection { s with hostname := some h, port := some p }
          (.opened t) (.response r)
        = (.error (.connectError r.str),
            { s with
              hostname := some h, port := some p, protocol := none,
              transport := none, connect_lock := false }))
    ∧ (r.code = SMTPStatus.ready →
      SMTPConnection.create_connection { s with hostname := some h, port := some p }
          (.opened t) (.response r)
        = (.ok r,
            { s with
              hostname := some h, port := some p, protocol := some ⟨⟩,
              transport := some t })) := by
  refine ⟨rfl, fun hr => ?_, fun hr => ?_⟩ <;>
    simp [SMTPConnection.create_connection, SMTPConnection.close, hr]

/-- Witness for C6: a 554 greeting is rejected with the response text and a
closed state; a 220 greeting is returned with the connection kept. -/
theorem create_connection_greeting_witness :
    (SMTPConnection.create_connection
        { sampleState with
          hostname := some "localhost", port := some 25, connect_lock := true }
      (.opened ⟨false, 0⟩) (.response ⟨554, "No SMTP service"⟩)
      = (.error (.connectError (SMTPResponse.str ⟨554, "No SMTP service"⟩)),
          { sampleState with
            hostname := some "localhost", port := some 25, connect_lock := false }))
    ∧ (SMTPConnection.create_connection
        { sampleState with
          hostname := some "localhost", port := some 25, connect_lock := true }
      (.opened ⟨false, 0⟩) (.response ⟨220, "ready"⟩)
      = (.ok ⟨220, "ready"⟩,
          { sampleState with
            hostname := some "localhost", port := some 25, protocol := some ⟨⟩,
            transport := some ⟨false, 0⟩, connect_lock := true })) :=
  ⟨(create_connection_greeting { sampleState with connect_lock := true }
      "localhost" 25 ⟨false, 0⟩ ⟨554, "No SMTP service"⟩).2.1 (by decide),
    (create_connection_greeting { sampleState with connect_lock := true }
      "localhost" 25 ⟨false, 0⟩ ⟨220, "ready"⟩).2.2 (by decide)⟩

/-- C7: on a live connection, a response with the domain-unavailable code
(421) makes `execute_command` close the connection yet still return the
response (so `is_connected` is false afterwards); any other code returns the
response and leaves the connection open. -/
theorem execute_command_unavailable_closes (s : SMTPConnection) (t : Transport)
    (r : SMTPResponse) (to_ : DefaultArg (Option Nat)) (ht : t.closing = false) :
    (r.code = SMTPStatus.domain_unavailable →
      SMTPConnection.execute_command
          { s with transport := some t, protocol := some ⟨⟩ } (.response r) to_
        = (.ok r, SMTPConnection.close { s with transport := some t, protocol := some ⟨⟩ })
      ∧ (SMTPConnection.close
          { s with transport := some t, protocol := some ⟨⟩ }).is_connected = false)
    ∧ (r.code ≠ SMTPStatus.domain_unavailable →
      SMTPConnection.execute_command
          { s with transport := some t, protocol := some ⟨⟩ } (.response r) to_
        = (.ok r, { s with transport := some t, protocol := some ⟨⟩ })
      ∧ SMTPConnection.is_connected
          { s with transport := some t, protocol := some ⟨⟩ } = true) := by
  constructor <;> intro h <;>
    simp [SMTPConnection.execute_command, SMTPConnection.raise_error_if_disconnected,
      SMTPConnection.disconnected_check, SMTPConnection.is_connected,
      SMTPConnection.close, ht, h]

/-- Witness for C7 at the live concrete state, with codes 421 and 250. -/
theorem execute_command_unavailable_closes_witness :
    (SMTPConnection.execute_command liveState (.response ⟨421, "closing"⟩) .sentinel
      = (.ok ⟨421, "closing"⟩, SMTPConnection.close liveState)
      ∧ (SMTPConnection.close liveState).is_connected = false)
    ∧ (SMTPConnection.execute_command liveState (.response ⟨250, "OK"⟩) .sentinel
      = (.ok ⟨250, "OK"⟩, liveState)
      ∧ SMTPConnection.is_connected liveState = true) :=
  ⟨(execute_command_unavailable_closes { sampleState with connect_lock := true }
      ⟨false, 0⟩ ⟨421, "closing"⟩ .sentinel rfl).1 (by decide),
    (execute_command_unavailable_closes { sampleState with connect_lock := true }
      ⟨false, 0⟩ ⟨250, "OK"⟩ .sentinel rfl).2 (by decide)⟩

/-- C8 (amended): the scope guard force-closes when the exiting exception type
is exactly `ConnectionError` or exactly `SMTPTimeoutError` (the `in`-tuple
test does not cover subclasses) or when the manager is no longer connected;
otherwise it attempts `quit`, and when quit raises a `ConnectionError`,
`SMTPResponseException` or `SMTPTimeoutError` (subclasses included, matched
by `except`) it falls back to force-close instead of propagating; any other
quit exception propagates. -/
theorem aexit_guard_spec (s s' : SMTPConnection) (et e : ExcT) (q : QuitOutcome) :
    (et = .connectionError ∨ et = .smtpTimeoutError ∨ s.is_connected = false →
      s.aexit et q = (none, s.close))
    ∧ (s.is_connected = true →
      (et == ExcT.connectionError || et == ExcT.smtpTimeoutError) = false →
      (e.subclassOf .connectionError || e.subclassOf .smtpResponseException
          || e.subclassOf .smtpTimeoutError) = true →
      s.aexit et (.raises e s') = (none, s'.close))
    ∧ (s.is_connected = true →
      (et == ExcT.connectionError || et == ExcT.smtpTimeoutError) = false →
      (e.subclassOf .connectionError || e.subclassOf .smtpResponseException
          || e.subclassOf .smtpTimeoutError) = false →
      s.aexit et (.raises e s') = (some e, s'))
    ∧ (s.is_connected = true →
      (et == ExcT.connectionError || et == ExcT.smtpTimeoutError) = false →
      s.aexit et (.ok s') = (none, s')) := by
  refine ⟨fun hc => ?_, fun h1 h2 h3 => ?_, fun h1 h2 h3 => ?_, fun h1 h2 => ?_⟩
  · rcases hc with hc | hc | hc <;> simp [SMTPConnection.aexit, hc]
  · simp [SMTPConnection.aexit, h1, h2, h3]
  · simp [SMTPConnection.aexit, h1, h2, h3]
  · simp [SMTPConnection.aexit, h1, h2]

/-- Witness for C8: an exact `ConnectionError` exit closes; a quit raising the
builtin subclass `ConnectionResetError` is caught and closes; a quit raising
`NotImplementedError` propagates; a clean exit keeps the quit result. -/
theorem aexit_guard_spec_witness :
    SMTPConnection.aexit liveState .connectionError (.ok sampleState)
      = (none, SMTPConnection.close liveState)
    ∧ SMTPConnection.aexit liveState .other (.raises .connectionResetError staleState)
      = (none, SMTPConnection.close staleState)
    ∧ SMTPConnection.aexit liveState .other (.raises .notImplementedError staleState)
      = (some .notImplementedError, staleState)
    ∧ SMTPConnection.aexit liveState .noneType (.ok sampleState)
      = (none, sampleState) :=
  ⟨(aexit_guard_spec liveState sampleState .connectionError .other
      (.ok sampleState)).1 (Or.inl rfl),
    (aexit_guard_spec liveState staleState .other .connectionResetError
      (.raises .connectionResetError staleState)).2.1 (by decide) (by decide) (by decide),
    (aexit_guard_spec liveState staleState .other .notImplementedError
      (.raises .notImplementedError staleState)).2.2.1 (by decide) (by decide) (by decide),
    (aexit_guard_spec liveState sampleState .noneType .other
      (.ok sampleState)).2.2.2 (by decide) (by decide)⟩

/-- C8 counterexample: on exit with `ConnectionResetError` — a builtin
subclass of `ConnectionError` — while still connected, the guard does not
force-close (the tuple-membership type test misses subclasses): with a
successful quit the final state is untouched and still connected, refuting
"force-closes unconditionally for any network error including subclasses". -/
theorem aexit_guard_counterexample :
    SMTPConnection.aexit liveState .connectionResetError (.ok liveState)
      = (none, liveState)
    ∧ liveState.is_connected = true
    ∧ ExcT.subclassOf .connectionResetError .connectionError = true :=
  ⟨rfl, rfl, rfl⟩

/-- C9: the TLS context builder returns a stored pre-built context unchanged
(and, being pure, mutates nothing); otherwise it builds a client context with
hostname checking and peer-certificate verification both tracking
`validate_certs`, the certificate bundle (when given) loaded as a trust
anchor, and the client certificate (when given) loaded together with the
client key for mutual TLS. -/
theorem get_tls_context_spec :
    (∀ (s : SMTPConnection) (c : SSLContext),
      SMTPConnection.get_tls_context { s with tls_context := some c } = c)
    ∧ ∀ s : SMTPConnection,
        (SMTPConnection.get_tls_context { s with tls_context := none }).check_hostname
            = s.validate_certs
        ∧ (SMTPConnection.get_tls_context { s with tls_context := none }).verify_mode
            = (if s.validate_certs then VerifyMode.cert_required else VerifyMode.cert_none)
        ∧ (SMTPConnection.get_tls_context { s with tls_context := none }).ca_bundle
            = s.cert_bundle
        ∧ (SMTPConnection.get_tls_context { s with tls_context := none }).cert_chain
            = s.client_cert.map (fun c => (c, s.client_key)) := by
  constructor
  · intro s c
    rfl
  · intro s
    obtain ⟨prot, tr, hn, po, tm, ut, sa, vc, cc, ck, tc, cb, lk⟩ := s
    cases vc <;> cases cb <;> cases cc <;>
      simp [SMTPConnection.get_tls_context, create_default_context]

/-- C10: every explicitly supplied override is applied to the stored
configuration before the network attempt, and the stored configuration of the
state `connect` returns equals the configuration after override application
for every outcome — success or any failure — so a failed connect rolls back
only the transport/protocol references and the lock, never the
configuration. -/
theorem connect_config_persistence (s : SMTPConnection) (a : ConnectArgs)
    (co : ConnectOutcome) (go : GreetingOutcome) :
    (s.connect a co go).2.config
      = (apply_connect_overrides { s with connect_lock := true } a).config := by
  simp only [SMTPConnection.connect]
  split
  · rfl
  · exact config_create_connection _ _ _
